import Mathlib

/-!
Verification of the PacketPilot engine bridge (`src-tauri/src`).

The development shallowly embeds the bridge's data model and operations:
the JSON values exchanged with the `sharkd` engine are modelled by an
inductive `Json` type (JSON numbers are carried as `Int`; no claim performs
floating-point arithmetic, and the numeric payloads the claims touch are
integral), fallible decoding is modelled with `Option`/`Except`, and the
request-building and response-reshaping functions of `sharkd_client.rs`,
`lib.rs` and `http_bridge.rs` are translated into executable Lean
definitions.  Theorems below settle the specification's claims against
these definitions.
-/

namespace PacketPilot

set_option maxRecDepth 100000

/-- Model of `serde_json::Value`.  Objects are association lists; engine
responses are produced by a JSON parser, so keys are unique and first-match
lookup coincides with map lookup.  Numbers are carried as `Int` (the claims
only ever inspect integral payloads and never compute with them). -/
inductive Json where
  | null : Json
  | bool (b : Bool) : Json
  | num (n : Int) : Json
  | str (s : String) : Json
  | arr (elems : List Json) : Json
  | obj (fields : List (String × Json)) : Json
deriving Repr

/-- Key lookup in an object's field list (first match, as in a JSON map). -/
def lookupField : List (String × Json) → String → Option Json
  | [], _ => none
  | (k, v) :: rest, key => if k = key then some v else lookupField rest key

/-- Model of `Value::get(key)`: field access, `none` on non-objects. -/
def Json.get : Json → String → Option Json
  | .obj fs, key => lookupField fs key
  | _, _ => none

/-- Model of `Value::as_str`. -/
def Json.asStr : Json → Option String
  | .str s => some s
  | _ => none

/-- Model of `Value::as_array`. -/
def Json.asArr : Json → Option (List Json)
  | .arr xs => some xs
  | _ => none

/-- Model of `Value::is_array`. -/
def Json.isArr : Json → Bool
  | .arr _ => true
  | _ => false

/-- One escaped character of a JSON string literal, as printed by the
engine-facing JSON library's `Display` (common escapes; claims only ever
render numeric error codes, where escaping is not exercised). -/
def escChar (c : Char) : String :=
  if c = '"' then "\\\""
  else if c = '\\' then "\\\\"
  else if c = '\n' then "\\n"
  else if c = '\t' then "\\t"
  else if c = '\r' then "\\r"
  else String.singleton c

/-- Escape a string for JSON display. -/
def escapeString (s : String) : String :=
  s.toList.foldr (fun c acc => escChar c ++ acc) ""

mutual
/-- Model of `serde_json::Value`'s `Display` (compact printing), used by
`format!("... {}", err)` in `SharkdClient::load`. -/
def renderJson : Json → String
  | .null => "null"
  | .bool b => if b then "true" else "false"
  | .num n => toString n
  | .str s => "\"" ++ escapeString s ++ "\""
  | .arr xs => "[" ++ renderList xs ++ "]"
  | .obj fs => "\x7b" ++ renderFields fs ++ "\x7d"
/-- Comma-separated rendering of array elements. -/
def renderList : List Json → String
  | [] => ""
  | [x] => renderJson x
  | x :: xs => renderJson x ++ "," ++ renderList xs
/-- Comma-separated rendering of object fields. -/
def renderFields : List (String × Json) → String
  | [] => ""
  | [(k, v)] => "\"" ++ escapeString k ++ "\":" ++ renderJson v
  | (k, v) :: fs =>
      "\"" ++ escapeString k ++ "\":" ++ renderJson v ++ "," ++ renderFields fs
end

/-- Params built by `SharkdClient::frames` (`sharkd_client.rs` lines
722-732): `skip` is included only when strictly positive. -/
def frames_params (skip limit : Nat) : Json :=
  if skip > 0 then
    .obj [("skip", .num skip), ("limit", .num limit)]
  else
    .obj [("limit", .num limit)]

/-- Params built by `SharkdClient::search_frames` (`sharkd_client.rs` lines
781-794): same skip-omission rule, with the filter always present. -/
def search_frames_params (filter : String) (skip limit : Nat) : Json :=
  if skip > 0 then
    .obj [("filter", .str filter), ("skip", .num skip), ("limit", .num limit)]
  else
    .obj [("filter", .str filter), ("limit", .num limit)]

/-- C3: for every call to `frames(skip, limit)` and to
`search_frames(filter, skip, limit)`, the outgoing params object contains no
"skip" key when `skip = 0`, contains "skip" with exactly the given value when
`skip > 0`, and contains "limit" in both cases. -/
theorem c3_skip_omission (filter : String) (skip limit : Nat) :
    ((frames_params skip limit).get "skip"
      = if skip > 0 then some (.num skip) else none) ∧
    ((frames_params skip limit).get "limit" = some (.num limit)) ∧
    ((search_frames_params filter skip limit).get "skip"
      = if skip > 0 then some (.num skip) else none) ∧
    ((search_frames_params filter skip limit).get "limit" = some (.num limit)) := by
  by_cases h : skip > 0 <;>
    simp [frames_params, search_frames_params, Json.get, lookupField, h]

/-- Witness for C3 at concrete skip values. -/
theorem c3_skip_omission_witness :
    ((frames_params 0 100).get "skip"
      = if 0 > 0 then some (.num 0) else none) ∧
    ((frames_params 0 100).get "limit" = some (.num 100)) ∧
    ((search_frames_params "tcp" 0 100).get "skip"
      = if 0 > 0 then some (.num 0) else none) ∧
    ((search_frames_params "tcp" 0 100).get "limit" = some (.num 100)) :=
  c3_skip_omission "tcp" 0 100

/-- Decoding step of `SharkdClient::check_filter` (`sharkd_client.rs` lines
767-772): once the engine result is decoded, the filter is reported valid
iff the result has no "err" field.  The function is total on decoded
results: a malformed expression yields `Ok(false)`, never an error. -/
def check_filter_decode (result : Json) : Bool :=
  (result.get "err").isNone

/-- Decoding step of `SharkdClient::load` (`sharkd_client.rs` lines
693-713): `{"status":"OK"}` means success; otherwise an "err" field carries
the engine error code; with neither, success is assumed. -/
def load_decode (result : Json) : Except String Unit :=
  if (result.get "status").bind Json.asStr = some "OK" then
    .ok ()
  else
    match result.get "err" with
    | some e => .error ("Failed to load file: error code " ++ renderJson e)
    | none => .ok ()

/-- Model of the `Frame` struct of `sharkd_client.rs` (serde field names:
"c", "num", "bg", "fg"); `number` models the `u32` field as a `Nat` below
`2^32`. -/
structure Frame where
  columns : List String
  number : Nat
  background : Option String
  foreground : Option String
deriving Repr, DecidableEq

/-- serde decoding of a JSON value into a `Vec<String>` element list. -/
def parseStrings : List Json → Option (List String)
  | [] => some []
  | x :: xs =>
    match x.asStr, parseStrings xs with
    | some s, some rest => some (s :: rest)
    | _, _ => none

/-- serde decoding of an unsigned machine integer (`u32`/`u64`) below
`bound` from a JSON value. -/
def asBoundedNat (bound : Int) : Json → Option Nat
  | .num n => if 0 ≤ n ∧ n < bound then some n.toNat else none
  | _ => none

/-- serde decoding of a `#[serde(default)] Option<String>` field: absent or
null deserializes to `none`; a string to `some`; anything else fails. -/
def parseOptionalString : Option Json → Option (Option String)
  | none => some none
  | some .null => some none
  | some (.str s) => some (some s)
  | some _ => none

/-- serde decoding of one `Frame` ("c" and "num" required, "bg"/"fg"
defaulted). -/
def parseFrame (j : Json) : Option Frame :=
  match j with
  | .obj _ =>
    match (j.get "c").bind Json.asArr with
    | some colsJ =>
      match parseStrings colsJ, (j.get "num").bind (asBoundedNat (2 ^ 32)),
          parseOptionalString (j.get "bg"), parseOptionalString (j.get "fg") with
      | some cols, some num, some bg, some fg =>
          some ⟨cols, num, bg, fg⟩
      | _, _, _, _ => none
    | none => none
  | _ => none

/-- serde decoding of a `Vec<Frame>` element list. -/
def parseFrameList : List Json → Option (List Frame)
  | [] => some []
  | x :: xs =>
    match parseFrame x, parseFrameList xs with
    | some f, some rest => some (f :: rest)
    | _, _ => none

/-- serde decoding of a JSON value into a `Vec<Frame>`. -/
def parseFrames (j : Json) : Option (List Frame) :=
  match j with
  | .arr xs => parseFrameList xs
  | _ => none

/-- Decoding step of `SharkdClient::search_frames` (`sharkd_client.rs`
lines 796-813): the result may be a bare array of frames or an object
wrapping the array under "frames" (anything else decodes to the empty
page); the returned total is the length of the decoded page. -/
def search_frames_decode (result : Json) : Except String (List Frame × Nat) :=
  if result.isArr then
    match parseFrames result with
    | some fs => .ok (fs, fs.length)
    | none => .error "Failed to parse frames"
  else
    match result.get "frames" with
    | some framesArr =>
      match parseFrames framesArr with
      | some fs => .ok (fs, fs.length)
      | none => .error "Failed to parse frames"
    | none => .ok ([], 0)

/-- Model of the `FrameData` struct of `lib.rs`. -/
structure FrameData where
  number : Nat
  time : String
  source : String
  destination : String
  protocol : String
  length : String
  info : String
  background : Option String
  foreground : Option String
deriving Repr, DecidableEq

/-- Model of `impl From<Frame> for FrameData` (`lib.rs` lines 50-66):
`cols.get(i).cloned().unwrap_or_default()` is `List.getD i ""`. -/
def FrameData.ofFrame (frame : Frame) : FrameData :=
  let cols := frame.columns
  { number := frame.number
    time := cols.getD 1 ""
    source := cols.getD 2 ""
    destination := cols.getD 3 ""
    protocol := cols.getD 4 ""
    length := cols.getD 5 ""
    info := cols.getD 6 ""
    background := frame.background
    foreground := frame.foreground }

/-- ASCII lower-casing of one character. -/
def asciiLowerChar (c : Char) : Char :=
  if 'A' ≤ c ∧ c ≤ 'Z' then Char.ofNat (c.toNat + 32) else c

/-- ASCII upper-casing of one character. -/
def asciiUpperChar (c : Char) : Char :=
  if 'a' ≤ c ∧ c ≤ 'z' then Char.ofNat (c.toNat - 32) else c

/-- Model of `str::to_lowercase` on the ASCII protocol names the bridge is
called with ("tcp", "udp", "http"). -/
def asciiLower (s : String) : String := String.mk (s.data.map asciiLowerChar)

/-- Model of `str::to_uppercase` on the ASCII protocol names the bridge is
called with. -/
def asciiUpper (s : String) : String := String.mk (s.data.map asciiUpperChar)

/-- Params built by `SharkdClient::follow_stream` (`sharkd_client.rs` lines
817-827): the filter is the lower-cased protocol followed by ".stream==" and
the decimal stream id; the follow argument is the upper-cased protocol. -/
def follow_stream_params (protocol : String) (stream_id : Nat) : Json :=
  .obj [("follow", .str (asciiUpper protocol)),
        ("filter", .str (asciiLower protocol ++ ".stream==" ++ toString stream_id))]

/-- Model of the `StreamPayload` struct of `sharkd_client.rs`: byte count,
base64 data, direction bit (`u8`, 0 = client to server). -/
structure StreamPayload where
  n : Nat
  d : String
  s : Nat
deriving Repr, DecidableEq

/-- Direction labeling of one payload segment in `stream_handler`
(`http_bridge.rs` lines 268-272): bit 0 maps to "client_to_server", any
nonzero bit to "server_to_client". -/
def segment_direction (p : StreamPayload) : String :=
  if p.s = 0 then "client_to_server" else "server_to_client"

/-- Helper: `List.getD i ""` is the element at `i` when the index is in
range and `""` when the list is shorter. -/
theorem getD_dite (l : List String) (i : Nat) :
    l.getD i "" = if h : i < l.length then l.get ⟨i, h⟩ else "" := by
  by_cases h : i < l.length
  · simp [List.getD_eq_getElem l "" h, h, List.get_eq_getElem]
  · rw [List.getD_eq_default l "" (Nat.le_of_not_lt h)]
    simp [h]

/-- C9: converting any `Frame` to the public `FrameData` is total; the
frame number, background and foreground pass through unchanged, and the
time, source, destination, protocol, length and info fields equal the
column string at index 1-6 when that index exists in the columns list and
the empty string when the list is shorter. -/
theorem c9_frame_to_frame_data (f : Frame) :
    (FrameData.ofFrame f).number = f.number ∧
    (FrameData.ofFrame f).background = f.background ∧
    (FrameData.ofFrame f).foreground = f.foreground ∧
    (FrameData.ofFrame f).time
      = (if h : 1 < f.columns.length then f.columns.get ⟨1, h⟩ else "") ∧
    (FrameData.ofFrame f).source
      = (if h : 2 < f.columns.length then f.columns.get ⟨2, h⟩ else "") ∧
    (FrameData.ofFrame f).destination
      = (if h : 3 < f.columns.length then f.columns.get ⟨3, h⟩ else "") ∧
    (FrameData.ofFrame f).protocol
      = (if h : 4 < f.columns.length then f.columns.get ⟨4, h⟩ else "") ∧
    (FrameData.ofFrame f).length
      = (if h : 5 < f.columns.length then f.columns.get ⟨5, h⟩ else "") ∧
    (FrameData.ofFrame f).info
      = (if h : 6 < f.columns.length then f.columns.get ⟨6, h⟩ else "") := by
  exact ⟨rfl, rfl, rfl, getD_dite f.columns 1, getD_dite f.columns 2,
    getD_dite f.columns 3, getD_dite f.columns 4, getD_dite f.columns 5,
    getD_dite f.columns 6⟩

/-- Witness for C9 at a concrete frame with a short columns list. -/
theorem c9_frame_to_frame_data_witness :
    (FrameData.ofFrame ⟨["1", "0.1", "10.0.0.1"], 7, none, none⟩).number = 7 ∧
    (FrameData.ofFrame ⟨["1", "0.1", "10.0.0.1"], 7, none, none⟩).time
      = (if h : 1 < (["1", "0.1", "10.0.0.1"] : List String).length then
          (["1", "0.1", "10.0.0.1"] : List String).get ⟨1, h⟩ else "") ∧
    (FrameData.ofFrame ⟨["1", "0.1", "10.0.0.1"], 7, none, none⟩).info
      = (if h : 6 < (["1", "0.1", "10.0.0.1"] : List String).length then
          (["1", "0.1", "10.0.0.1"] : List String).get ⟨6, h⟩ else "") :=
  let h := c9_frame_to_frame_data ⟨["1", "0.1", "10.0.0.1"], 7, none, none⟩
  ⟨h.1, h.2.2.2.1, h.2.2.2.2.2.2.2.2⟩

/-- C4: `check_filter` never raises an error once the engine result is
decoded: the empty expression (whose engine result carries no "err" field)
is reported valid, a malformed expression (whose engine result carries an
"err" field) is reported invalid, and in general a decoded result is
reported valid exactly when it has no "err" field. -/
theorem c4_check_filter (emptyResult malformedResult : Json)
    (hempty : emptyResult.get "err" = none)
    (hmal : (malformedResult.get "err").isSome) :
    check_filter_decode emptyResult = true ∧
    check_filter_decode malformedResult = false ∧
    (∀ r : Json, check_filter_decode r = true ↔ r.get "err" = none) := by
  refine ⟨?_, ?_, ?_⟩
  · simp [check_filter_decode, hempty]
  · simp only [check_filter_decode]
    cases h : malformedResult.get "err" with
    | none => rw [h] at hmal; simp at hmal
    | some e => simp
  · intro r
    simp [check_filter_decode, Option.isNone_iff_eq_none]

/-- Witness for C4 at concrete engine results. -/
theorem c4_check_filter_witness :
    check_filter_decode (.obj []) = true ∧
    check_filter_decode (.obj [("err", .num 4)]) = false ∧
    (∀ r : Json, check_filter_decode r = true ↔ r.get "err" = none) :=
  c4_check_filter (.obj []) (.obj [("err", .num 4)]) rfl rfl

/-- C10: `load` returns success whenever the decoded result carries
`"status":"OK"`; otherwise an "err" field yields an error carrying the
engine's error code; with neither indication, success is assumed. -/
theorem c10_load_decode (r : Json) :
    ((r.get "status").bind Json.asStr = some "OK" → load_decode r = .ok ()) ∧
    ((r.get "status").bind Json.asStr ≠ some "OK" →
      ∀ e, r.get "err" = some e →
        load_decode r = .error ("Failed to load file: error code " ++ renderJson e)) ∧
    ((r.get "status").bind Json.asStr ≠ some "OK" → r.get "err" = none →
      load_decode r = .ok ()) := by
  refine ⟨fun h => by simp [load_decode, h],
          fun h e he => by simp [load_decode, h, he],
          fun h he => by simp [load_decode, h, he]⟩

/-- Witness for C10 at concrete engine results. -/
theorem c10_load_decode_witness :
    load_decode (.obj [("status", .str "OK")]) = .ok () ∧
    load_decode (.obj [("err", .num 2)])
      = .error "Failed to load file: error code 2" ∧
    load_decode (.obj []) = .ok () := by
  refine ⟨(c10_load_decode _).1 rfl, ?_, (c10_load_decode _).2.2 (by decide) rfl⟩
  have h := (c10_load_decode (.obj [("err", .num 2)])).2.1 (by decide) (.num 2) rfl
  simpa using h

/-- C5: `search_frames` accepts both engine result shapes — a bare array
and an object wrapping the array under "frames" — decoding each to the same
page, and the returned "total matching" count always equals the number of
frames in the returned page, not a true total. -/
theorem c5_search_frames_shapes :
    (∀ a : List Json,
      search_frames_decode (.arr a)
        = search_frames_decode (.obj [("frames", .arr a)])) ∧
    (∀ (r : Json) (fs : List Frame) (total : Nat),
      search_frames_decode r = .ok (fs, total) → total = fs.length) := by
  constructor
  · intro a
    simp [search_frames_decode, Json.isArr, Json.get, lookupField, parseFrames]
  · intro r fs total h
    unfold search_frames_decode at h
    split at h <;> [skip; split at h] <;>
      [split at h; split at h; skip] <;> simp_all <;>
      (obtain ⟨h1, h2⟩ := h; subst h1; exact h2.symm)

/-- Witness for C5 at a concrete engine result. -/
theorem c5_search_frames_shapes_witness :
    search_frames_decode (.arr [])
      = search_frames_decode (.obj [("frames", .arr [])]) ∧
    (0 : Nat) = ([] : List Frame).length :=
  ⟨c5_search_frames_shapes.1 [],
   c5_search_frames_shapes.2 (.arr []) [] 0 rfl⟩

/-- C6: `follow_stream(protocol, streamId)` sends "filter" equal to the
lower-cased protocol followed by ".stream==" and the id, and "follow" equal
to the upper-cased protocol (`follow_stream("tcp", 0)` builds
"tcp.stream==0" and "TCP"); and in the HTTP stream response a payload
segment with direction bit 0 is labeled "client_to_server" while any
nonzero bit is labeled "server_to_client". -/
theorem c6_follow_stream (protocol : String) (stream_id : Nat) :
    (follow_stream_params protocol stream_id).get "filter"
      = some (.str (asciiLower protocol ++ ".stream==" ++ toString stream_id)) ∧
    (follow_stream_params protocol stream_id).get "follow"
      = some (.str (asciiUpper protocol)) ∧
    (follow_stream_params "tcp" 0).get "filter" = some (.str "tcp.stream==0") ∧
    (follow_stream_params "tcp" 0).get "follow" = some (.str "TCP") ∧
    (∀ p : StreamPayload,
      (p.s = 0 → segment_direction p = "client_to_server") ∧
      (p.s ≠ 0 → segment_direction p = "server_to_client")) := by
  refine ⟨rfl, rfl, rfl, rfl,
    fun p => ⟨fun h => by simp [segment_direction, h],
              fun h => by simp [segment_direction, h]⟩⟩

/-- Witness for C6 at concrete payload segments. -/
theorem c6_follow_stream_witness :
    segment_direction ⟨5, "AAAA", 0⟩ = "client_to_server" ∧
    segment_direction ⟨5, "AAAA", 1⟩ = "server_to_client" :=
  ⟨((c6_follow_stream "tcp" 0).2.2.2.2 ⟨5, "AAAA", 0⟩).1 rfl,
   ((c6_follow_stream "tcp" 0).2.2.2.2 ⟨5, "AAAA", 1⟩).2 (by decide)⟩

/-- Model of the `ProtocolNode` struct of `sharkd_client.rs` (serde names:
"proto" required, "frames"/"bytes" defaulted, children under "protos"). -/
structure ProtocolNode where
  protocol : String
  frames : Nat
  bytes : Nat
  children : List ProtocolNode
deriving Repr

/-- Model of the `Conversation` struct of `sharkd_client.rs`; every field
is serde-defaulted.  The `start`/`stop` time bounds are `f64` in the code;
their numeric payloads are carried as `Int` here (no claim computes with
them). -/
structure Conversation where
  saddr : String
  daddr : String
  sport : Option String
  dport : Option String
  rxf : Nat
  rxb : Nat
  txf : Nat
  txb : Nat
  start : Option Int
  stop : Option Int
  filter : Option String
deriving Repr, DecidableEq

/-- Model of the `Endpoint` struct of `sharkd_client.rs`; every field is
serde-defaulted. -/
structure Endpoint where
  host : String
  port : Option String
  rxf : Nat
  rxb : Nat
  txf : Nat
  txb : Nat
  filter : Option String
deriving Repr, DecidableEq

/-- Model of the `CaptureStats` struct of `sharkd_client.rs`. -/
structure CaptureStats where
  protocol_hierarchy : List ProtocolNode
  tcp_conversations : List Conversation
  udp_conversations : List Conversation
  endpoints : List Endpoint
deriving Repr

/-- serde decoding of a `#[serde(default)] String` field. -/
def parseDefaultString : Option Json → Option String
  | none => some ""
  | some (.str s) => some s
  | some _ => none

/-- serde decoding of a `#[serde(default)] u64` field. -/
def parseDefaultU64 : Option Json → Option Nat
  | none => some 0
  | some j => asBoundedNat (2 ^ 64) j

/-- serde decoding of a `#[serde(default)] Option<f64>` field (numeric
payloads carried as `Int`). -/
def parseOptionalNum : Option Json → Option (Option Int)
  | none => some none
  | some .null => some none
  | some (.num n) => some (some n)
  | some _ => none

/-- serde decoding of one `Conversation`. -/
def parseConversation (j : Json) : Option Conversation :=
  match j with
  | .obj _ => do
    let saddr ← parseDefaultString (j.get "saddr")
    let daddr ← parseDefaultString (j.get "daddr")
    let sport ← parseOptionalString (j.get "sport")
    let dport ← parseOptionalString (j.get "dport")
    let rxf ← parseDefaultU64 (j.get "rxf")
    let rxb ← parseDefaultU64 (j.get "rxb")
    let txf ← parseDefaultU64 (j.get "txf")
    let txb ← parseDefaultU64 (j.get "txb")
    let start ← parseOptionalNum (j.get "start")
    let stop ← parseOptionalNum (j.get "stop")
    let filter ← parseOptionalString (j.get "filter")
    pure ⟨saddr, daddr, sport, dport, rxf, rxb, txf, txb, start, stop, filter⟩
  | _ => none

/-- serde decoding of a `Vec<Conversation>` element list. -/
def parseConversationList : List Json → Option (List Conversation)
  | [] => some []
  | x :: xs =>
    match parseConversation x, parseConversationList xs with
    | some c, some rest => some (c :: rest)
    | _, _ => none

/-- serde decoding of a JSON value into a `Vec<Conversation>`. -/
def parseConversations (j : Json) : Option (List Conversation) :=
  match j with
  | .arr xs => parseConversationList xs
  | _ => none

/-- serde decoding of one `Endpoint`. -/
def parseEndpoint (j : Json) : Option Endpoint :=
  match j with
  | .obj _ => do
    let host ← parseDefaultString (j.get "host")
    let port ← parseOptionalString (j.get "port")
    let rxf ← parseDefaultU64 (j.get "rxf")
    let rxb ← parseDefaultU64 (j.get "rxb")
    let txf ← parseDefaultU64 (j.get "txf")
    let txb ← parseDefaultU64 (j.get "txb")
    let filter ← parseOptionalString (j.get "filter")
    pure ⟨host, port, rxf, rxb, txf, txb, filter⟩
  | _ => none

/-- serde decoding of a `Vec<Endpoint>` element list. -/
def parseEndpointList : List Json → Option (List Endpoint)
  | [] => some []
  | x :: xs =>
    match parseEndpoint x, parseEndpointList xs with
    | some e, some rest => some (e :: rest)
    | _, _ => none

/-- serde decoding of a JSON value into a `Vec<Endpoint>`. -/
def parseEndpoints (j : Json) : Option (List Endpoint) :=
  match j with
  | .arr xs => parseEndpointList xs
  | _ => none

mutual
/-- serde decoding of one `ProtocolNode` ("proto" required; "frames",
"bytes" and the "protos" children defaulted). -/
def parseProtocolNode : Json → Option ProtocolNode
  | .obj fs =>
    match lookupField fs "proto" with
    | some (.str name) =>
      match parseDefaultU64 (lookupField fs "frames"),
            parseDefaultU64 (lookupField fs "bytes"),
            lookupChildNodes fs with
      | some fr, some byt, some cs => some ⟨name, fr, byt, cs⟩
      | _, _, _ => none
    | _ => none
  | _ => none
/-- Decode the defaulted "protos" children field from an object's fields. -/
def lookupChildNodes : List (String × Json) → Option (List ProtocolNode)
  | [] => some []
  | (k, v) :: rest =>
    if k = "protos" then parseProtocolNodes v else lookupChildNodes rest
/-- serde decoding of a JSON value into a `Vec<ProtocolNode>`. -/
def parseProtocolNodes : Json → Option (List ProtocolNode)
  | .arr xs => parseProtocolNodeList xs
  | _ => none
/-- serde decoding of a `Vec<ProtocolNode>` element list. -/
def parseProtocolNodeList : List Json → Option (List ProtocolNode)
  | [] => some []
  | x :: xs =>
    match parseProtocolNode x, parseProtocolNodeList xs with
    | some n, some ns => some (n :: ns)
    | _, _ => none
end

/-- The "tap" name tag of a tagged result block:
`tap.get("tap").and_then(|t| t.as_str())`. -/
def tapTag (tap : Json) : Option String :=
  (tap.get "tap").bind Json.asStr

/-- The `find_tap` closure of `SharkdClient::capture_stats`
(`sharkd_client.rs` lines 854-858): locate a tagged block by its "tap"
name, never by array position. -/
def find_tap (taps : List Json) (name : String) : Option Json :=
  taps.find? (fun tap => tapTag tap == some name)

/-- The batched params of `SharkdClient::capture_stats` (`sharkd_client.rs`
lines 838-843): four named sub-queries in one request. -/
def capture_stats_params : Json :=
  .obj [("tap0", .str "phs"), ("tap1", .str "conv:TCP"),
        ("tap2", .str "conv:UDP"), ("tap3", .str "endpt:IPv4")]

/-- Response reshaping of `SharkdClient::capture_stats` (`sharkd_client.rs`
lines 848-890): a missing "taps" array yields the all-empty stats; each
component is located by tap name and defaults to the empty list when its
block, its payload field, or a decodable payload is absent. -/
def capture_stats (result : Json) : CaptureStats :=
  match (result.get "taps").bind Json.asArr with
  | none => ⟨[], [], [], []⟩
  | some taps =>
    { protocol_hierarchy :=
        (((find_tap taps "phs").bind (fun t => t.get "protos")).bind
          parseProtocolNodes).getD []
      tcp_conversations :=
        (((find_tap taps "conv:TCP").bind (fun t => t.get "convs")).bind
          parseConversations).getD []
      udp_conversations :=
        (((find_tap taps "conv:UDP").bind (fun t => t.get "convs")).bind
          parseConversations).getD []
      endpoints :=
        (((find_tap taps "endpt:IPv4").bind (fun t => t.get "hosts")).bind
          parseEndpoints).getD [] }

/-- Helper: a block absent by tag means `find_tap` locates nothing. -/
theorem find_tap_eq_none {taps : List Json} {name : String}
    (h : ∀ t ∈ taps, tapTag t ≠ some name) : find_tap taps name = none := by
  rw [find_tap, List.find?_eq_none]
  intro x hx
  simpa using h x hx

/-- C1: `capture_stats` never fails for missing tap data: a decoded engine
response with no "taps" array yields the all-empty `CaptureStats`, and each
of the four named sub-queries whose tagged block is absent from the taps
array yields an empty component; in particular an empty capture yields four
empty components and no error. -/
theorem c1_capture_stats_empty_default (result : Json) :
    ((result.get "taps").bind Json.asArr = none →
      capture_stats result = ⟨[], [], [], []⟩) ∧
    (∀ taps, (result.get "taps").bind Json.asArr = some taps →
      ((∀ t ∈ taps, tapTag t ≠ some "phs") →
        (capture_stats result).protocol_hierarchy = []) ∧
      ((∀ t ∈ taps, tapTag t ≠ some "conv:TCP") →
        (capture_stats result).tcp_conversations = []) ∧
      ((∀ t ∈ taps, tapTag t ≠ some "conv:UDP") →
        (capture_stats result).udp_conversations = []) ∧
      ((∀ t ∈ taps, tapTag t ≠ some "endpt:IPv4") →
        (capture_stats result).endpoints = [])) := by
  constructor
  · intro h
    unfold capture_stats
    rw [h]
  · intro taps hsome
    unfold capture_stats
    rw [hsome]
    refine ⟨fun h => ?_, fun h => ?_, fun h => ?_, fun h => ?_⟩ <;>
      simp [find_tap_eq_none h]

/-- Witness for C1: an engine response for an empty capture (empty taps
array) and a response with no taps array at all. -/
theorem c1_capture_stats_empty_default_witness :
    capture_stats (.obj []) = ⟨[], [], [], []⟩ ∧
    (capture_stats (.obj [("taps", .arr [])])).protocol_hierarchy = [] ∧
    (capture_stats (.obj [("taps", .arr [])])).tcp_conversations = [] ∧
    (capture_stats (.obj [("taps", .arr [])])).udp_conversations = [] ∧
    (capture_stats (.obj [("taps", .arr [])])).endpoints = [] := by
  have h := (c1_capture_stats_empty_default (.obj [("taps", .arr [])])).2 [] rfl
  exact ⟨(c1_capture_stats_empty_default (.obj [])).1 rfl,
    h.1 (by simp), h.2.1 (by simp), h.2.2.1 (by simp), h.2.2.2 (by simp)⟩

/-- Helper: `find?` is permutation-invariant when any two list members
satisfying the predicate are equal. -/
theorem find?_congr_perm {α : Type} (p : α → Bool) (l l' : List α)
    (hp : l.Perm l')
    (hu : ∀ x ∈ l, ∀ y ∈ l, p x = true → p y = true → x = y) :
    l.find? p = l'.find? p := by
  cases h1 : l.find? p with
  | none =>
    cases h2 : l'.find? p with
    | none => rfl
    | some b =>
      have hb := List.find?_some h2
      have hmem : b ∈ l := hp.symm.subset (List.mem_of_find?_eq_some h2)
      have := List.find?_eq_none.mp h1 b hmem
      simp_all
  | some a =>
    have ha := List.find?_some h1
    have hamem : a ∈ l := List.mem_of_find?_eq_some h1
    cases h2 : l'.find? p with
    | none =>
      have := List.find?_eq_none.mp h2 a (hp.subset hamem)
      simp_all
    | some b =>
      have hb := List.find?_some h2
      have hbmem : b ∈ l := hp.symm.subset (List.mem_of_find?_eq_some h2)
      exact congrArg some (hu a hamem b hbmem ha hb)

/-- A tagged `endpt:IPv4` block carrying one host. -/
def cxTapWithHost : Json :=
  .obj [("tap", .str "endpt:IPv4"), ("type", .str "host"),
        ("hosts", .arr [.obj [("host", .str "10.0.0.1")]])]

/-- A second block with the same `endpt:IPv4` tag but no "hosts" payload. -/
def cxTapNoHost : Json :=
  .obj [("tap", .str "endpt:IPv4"), ("type", .str "host")]

/-- Counterexample to C7 as stated: when two tagged blocks share the same
tap name, `find` takes the first, so permuting the taps array changes the
resulting `CaptureStats`. -/
theorem c7_counterexample :
    ([cxTapWithHost, cxTapNoHost] : List Json).Perm
      [cxTapNoHost, cxTapWithHost] ∧
    capture_stats (.obj [("taps", .arr [cxTapWithHost, cxTapNoHost])])
      ≠ capture_stats (.obj [("taps", .arr [cxTapNoHost, cxTapWithHost])]) := by
  constructor
  · exact List.Perm.swap cxTapNoHost cxTapWithHost []
  · intro h
    have h1 : (capture_stats
        (.obj [("taps", .arr [cxTapWithHost, cxTapNoHost])])).endpoints
        = [⟨"10.0.0.1", none, 0, 0, 0, 0, none⟩] := rfl
    have h2 : (capture_stats
        (.obj [("taps", .arr [cxTapNoHost, cxTapWithHost])])).endpoints
        = [] := rfl
    rw [congrArg CaptureStats.endpoints h, h2] at h1
    exact List.noConfusion h1

/-- C7 (amended): tap-result demultiplexing is order-independent provided
no two distinct blocks in the taps array carry the same tap-name tag (as is
the case for the four named sub-queries of the batched request): permuting
such a taps array leaves the resulting `CaptureStats` unchanged, each
component being located by its "tap" tag and never by array position. -/
theorem c7_tap_order_independent (r r' : Json) (taps taps' : List Json)
    (hr : (r.get "taps").bind Json.asArr = some taps)
    (hr' : (r'.get "taps").bind Json.asArr = some taps')
    (hperm : taps.Perm taps')
    (huniq : ∀ x ∈ taps, ∀ y ∈ taps, ∀ n : String,
      tapTag x = some n → tapTag y = some n → x = y) :
    capture_stats r = capture_stats r' := by
  have hfind : ∀ name : String, find_tap taps name = find_tap taps' name := by
    intro name
    apply find?_congr_perm _ _ _ hperm
    intro x hx y hy hpx hpy
    exact huniq x hx y hy name (by simpa using hpx) (by simpa using hpy)
  unfold capture_stats
  rw [hr, hr']
  simp only [find_tap] at hfind
  simp only [find_tap, hfind]

/-- Witness for C7 (amended): swapping two distinctly-tagged blocks leaves
the stats unchanged. -/
theorem c7_tap_order_independent_witness :
    capture_stats (.obj [("taps", .arr [cxTapWithHost, .obj [("tap", .str "phs")]])])
      = capture_stats (.obj [("taps", .arr [.obj [("tap", .str "phs")], cxTapWithHost])]) := by
  apply c7_tap_order_independent
    (.obj [("taps", .arr [cxTapWithHost, .obj [("tap", .str "phs")]])])
    (.obj [("taps", .arr [.obj [("tap", .str "phs")], cxTapWithHost])])
    [cxTapWithHost, .obj [("tap", .str "phs")]]
    [.obj [("tap", .str "phs")], cxTapWithHost] rfl rfl
    (List.Perm.swap (.obj [("tap", .str "phs")]) cxTapWithHost [])
  intro x hx y hy n hxn hyn
  simp only [List.mem_cons, List.mem_singleton, List.not_mem_nil, or_false] at hx hy
  rcases hx with hx | hx <;> rcases hy with hy | hy <;> subst hx hy
  · rfl
  · exfalso
    rw [show tapTag cxTapWithHost = some "endpt:IPv4" from rfl] at hxn
    rw [show tapTag (.obj [("tap", .str "phs")]) = some "phs" from rfl] at hyn
    simp only [Option.some.injEq] at hxn hyn
    subst hxn
    exact absurd hyn (by decide)
  · exfalso
    rw [show tapTag cxTapWithHost = some "endpt:IPv4" from rfl] at hyn
    rw [show tapTag (.obj [("tap", .str "phs")]) = some "phs" from rfl] at hxn
    simp only [Option.some.injEq] at hxn hyn
    subst hxn
    exact absurd hyn (by decide)
  · rfl

/-- Model of the `InstallIssue` struct of `sharkd_client.rs`. -/
structure InstallIssue where
  code : String
  message : String
  path : Option String
deriving Repr, DecidableEq

/-- Model of the `InstallHealthStatus` struct of `sharkd_client.rs`. -/
structure InstallHealthStatus where
  ok : Bool
  issues : List InstallIssue
  checked_paths : List String
  recommended_action : String
deriving Repr, DecidableEq

/-- Outcome of the Windows `sharkd -v` liveness probe. -/
inductive SpawnOutcome where
  | success : SpawnOutcome
  | exitStatus (status : String) : SpawnOutcome
  | execError (msg : String) : SpawnOutcome
deriving Repr, DecidableEq

/-- The environment the locator and health checker observe: the current
executable path, which files exist, the output of the platform's
locate-on-PATH facility, the platform flags, and the probe outcome.
Abstracting these effects makes `get_install_health` a pure function of the
environment. -/
structure Env where
  currentExe : Option String
  fileExists : String → Bool
  whichOutput : Option String
  whereOutput : Option (List String)
  isWindows : Bool
  targetTriple : String
  spawn : SpawnOutcome

/-- Model of `Path::join` (the separator plays no role in any claim). -/
def joinPath (dir file : String) : String := dir ++ "/" ++ file

/-- Model of `Path::parent` for the slash-separated paths the claims use:
drop the final component. -/
def parentDir (p : String) : Option String :=
  let parts := p.splitOn "/"
  if parts.length ≤ 1 then none
  else some (String.intercalate "/" parts.dropLast)

/-- Substring test on character lists (model of `str::contains`). -/
def listContainsSub (l pat : List Char) : Bool :=
  match l with
  | [] => pat.isEmpty
  | _ :: t => pat.isPrefixOf l || listContainsSub t pat

/-- Model of `str::contains`. -/
def strContains (s pat : String) : Bool :=
  listContainsSub s.data pat.data

/-- `is_production_mode` (`sharkd_client.rs` lines 254-257): a path without
a development build marker implies production. -/
def is_production_mode (exePath : String) : Bool :=
  !(strContains exePath "target/debug") && !(strContains exePath "target/release")

/-- `bundled_sharkd_candidates` (`sharkd_client.rs` lines 259-278). -/
def bundled_sharkd_candidates (env : Env) (exeDir : String) : List String :=
  if env.isWindows then
    [joinPath exeDir ("sharkd-" ++ env.targetTriple ++ ".exe"),
     joinPath exeDir "sharkd.exe"]
  else
    [joinPath exeDir ("sharkd-wrapper-" ++ env.targetTriple),
     joinPath exeDir ("sharkd-" ++ env.targetTriple),
     joinPath exeDir "sharkd"]

/-- Worker for `dedupFirst`, carrying the already-seen paths. -/
def dedupFirstAux (seen : List String) : List String → List String
  | [] => []
  | x :: xs =>
    if seen.contains x then dedupFirstAux seen xs
    else x :: dedupFirstAux (x :: seen) xs

/-- De-duplication keeping first occurrences (the `BTreeSet::insert` filter
of `system_sharkd_candidates`). -/
def dedupFirst (paths : List String) : List String :=
  dedupFirstAux [] paths

/-- `system_sharkd_candidates` (`sharkd_client.rs` lines 310-339), with
`add_windows_path_candidates` (lines 281-308) inlined for the Windows
branch. -/
def system_sharkd_candidates (env : Env) : List String :=
  if env.isWindows then
    let wherePaths :=
      match env.whereOutput with
      | some lines => (lines.map String.trim).filter (fun l => !l.isEmpty)
      | none => []
    dedupFirst (wherePaths ++
      ["C:\\Program Files\\Wireshark\\sharkd.exe",
       "C:\\Program Files (x86)\\Wireshark\\sharkd.exe"])
  else
    let whichPaths :=
      match env.whichOutput with
      | some out =>
        let t := out.trim
        if !t.isEmpty then [t] else []
      | none => []
    dedupFirst whichPaths

/-- `windows_required_runtime_files` (`sharkd_client.rs` lines 342-350). -/
def windows_required_runtime_files : List String :=
  ["libwireshark.dll", "libwiretap.dll", "libwsutil.dll",
   "libglib-2.0-0.dll", "libgcrypt-20.dll"]

/-- `validate_windows_runtime` (`sharkd_client.rs` lines 353-386): missing
binary, missing runtime libraries, and the known glib naming-mismatch
pitfall. -/
def validate_windows_runtime (env : Env) (exeDir sharkdPath : String) :
    List InstallIssue :=
  if !env.fileExists sharkdPath then
    [⟨"missing_sharkd", "Bundled sharkd executable is missing.",
      some sharkdPath⟩]
  else
    (windows_required_runtime_files.filterMap (fun file =>
      if !env.fileExists (joinPath exeDir file) then
        some ⟨"missing_dependency",
          "Required runtime library is missing: " ++ file,
          some (joinPath exeDir file)⟩
      else none)) ++
    (if env.fileExists (joinPath exeDir "glib-2.0-0.dll") &&
        !env.fileExists (joinPath exeDir "libglib-2.0-0.dll") then
      [⟨"invalid_bundle",
        "Found glib-2.0-0.dll but missing libglib-2.0-0.dll expected by bundled sharkd.",
        some exeDir⟩]
    else [])

/-- The constant headline of the locator's not-found error
(`sharkd_client.rs` lines 464-467); the probe trail follows after a blank
line, so `lines().next()` always yields this headline. -/
def sharkdNotFoundHeadline : String :=
  "Sharkd not found. PacketPilot expects bundled sharkd or a Wireshark install with sharkd in PATH."

/-- The not-found error text: the headline, then the probe trail (the
trail's entries play no role in any claim and are abbreviated). -/
def sharkdNotFoundError : String :=
  sharkdNotFoundHeadline ++ "\n\nDebug info:\n=== Sharkd Detection Debug ==="

/-- The bundled-candidate probe of `find_sharkd_with_debug`: only in
production mode, next to the current executable. -/
def locateBundled (env : Env) : Option String :=
  if (env.currentExe.map is_production_mode).getD false then
    ((env.currentExe.bind parentDir).map (fun d =>
      (bundled_sharkd_candidates env d).find? env.fileExists)).getD none
  else none

/-- `find_sharkd_with_debug` (`sharkd_client.rs` lines 393-468), with the
diagnostic trail reduced to the error text the health checker actually
consumes: bundled candidates are probed only in production mode, then
system candidates; the first existing path wins. -/
def find_sharkd_with_debug (env : Env) : Except String String :=
  match locateBundled env with
  | some p => .ok p
  | none =>
    match (system_sharkd_candidates env).find? env.fileExists with
    | some p => .ok p
    | none => .error sharkdNotFoundError

/-- Model of `str::lines().next().unwrap_or("unknown")`: the characters up
to the first newline (the headlines involved carry no carriage returns). -/
def firstLine (s : String) : String :=
  if s.isEmpty then "unknown"
  else String.mk (s.data.takeWhile (fun c => c ≠ '\n'))

/-- Model of `str::to_ascii_lowercase`. -/
def asciiLowerString (s : String) : String := String.mk (s.data.map asciiLowerChar)

/-- The Windows-production bundle validation stage of `get_install_health`
(`sharkd_client.rs` lines 516-529): the runtime-library checks against the
primary bundled binary, plus the fallback-in-use pitfall. -/
def bundle_check_issues (env : Env) (sharkdPath : String) : List InstallIssue :=
  if env.isWindows && (env.currentExe.map is_production_mode).getD false then
    match env.currentExe.bind parentDir with
    | some dir =>
      validate_windows_runtime env dir
          (joinPath dir ("sharkd-" ++ env.targetTriple ++ ".exe")) ++
        (if sharkdPath ≠ joinPath dir ("sharkd-" ++ env.targetTriple ++ ".exe") then
          [⟨"invalid_bundle",
            "Bundled sharkd is missing or invalid; PacketPilot is currently relying on a system sharkd fallback.",
            some sharkdPath⟩]
        else [])
    | none => []
  else []

/-- The Windows liveness-probe stage of `get_install_health`
(`sharkd_client.rs` lines 531-560): only run when no issue was found yet;
a failed probe adds a `spawn_failed` issue. -/
def spawn_check_issues (env : Env) (sharkdPath : String)
    (issues : List InstallIssue) : List InstallIssue :=
  if env.isWindows && issues.isEmpty then
    match env.spawn with
    | .success => issues
    | .exitStatus st =>
      issues ++ [⟨"spawn_failed",
        "sharkd check returned non-zero status: " ++ st, some sharkdPath⟩]
    | .execError msg =>
      issues ++ [⟨"spawn_failed",
        (if strContains (asciiLowerString msg) ".dll" then
          "sharkd failed to start: " ++ msg
        else "sharkd failed to start; installation may be incomplete."),
        some sharkdPath⟩]
  else issues

/-- `get_install_health` (`sharkd_client.rs` lines 477-572) as a pure
function of the observed environment: collect the probed paths, locate the
binary, run the Windows-only bundle and spawn checks, and report a verdict
whose `ok` is the emptiness of the issue list. -/
def get_install_health (env : Env) : InstallHealthStatus :=
  let exeDir := env.currentExe.bind parentDir
  let checked_paths :=
    ((exeDir.map (fun d => bundled_sharkd_candidates env d)).getD []) ++
      system_sharkd_candidates env
  match find_sharkd_with_debug env with
  | .error e =>
    { ok := false
      issues := [⟨"missing_sharkd",
        "Could not find sharkd binary in bundled or system locations.", none⟩]
      checked_paths := checked_paths
      recommended_action := "repair (" ++ firstLine e ++ ")" }
  | .ok sharkdPath =>
    let issues := spawn_check_issues env sharkdPath
      (bundle_check_issues env sharkdPath)
    { ok := issues.isEmpty
      issues := issues
      checked_paths := checked_paths
      recommended_action := if env.isWindows then "repair" else "none" }

/-- Helper: the locator only ever fails with the constant not-found text.
-/
theorem find_sharkd_error_msg (env : Env) (e : String)
    (h : find_sharkd_with_debug env = .error e) :
    e = sharkdNotFoundError := by
  unfold find_sharkd_with_debug at h
  cases hb : locateBundled env with
  | some p => simp [hb] at h
  | none =>
    rw [hb] at h
    cases hs : (system_sharkd_candidates env).find? env.fileExists with
    | some p => simp [hs] at h
    | none =>
      rw [hs] at h
      exact (Except.error.injEq _ _).mp h.symm

/-- Helper: every issue from the Windows runtime validation carries one of
the stable codes. -/
theorem validate_windows_runtime_codes (env : Env) (exeDir sharkdPath : String) :
    ∀ i ∈ validate_windows_runtime env exeDir sharkdPath,
      i.code = "missing_sharkd" ∨ i.code = "missing_dependency" ∨
      i.code = "invalid_bundle" := by
  intro i hi
  unfold validate_windows_runtime at hi
  split at hi
  · simp at hi
    subst hi
    left
    rfl
  · rw [List.mem_append] at hi
    rcases hi with hi | hi
    · rcases List.mem_filterMap.mp hi with ⟨file, _, hf⟩
      split at hf
      · right
        left
        exact congrArg InstallIssue.code (Option.some.inj hf).symm
      · exact absurd hf (by simp)
    · split at hi
      · simp at hi
        subst hi
        right
        right
        rfl
      · exact absurd hi (by simp)

/-- Helper: every bundle-validation issue carries one of the stable codes.
-/
theorem bundle_check_issues_codes (env : Env) (sharkdPath : String) :
    ∀ i ∈ bundle_check_issues env sharkdPath,
      i.code = "missing_sharkd" ∨ i.code = "missing_dependency" ∨
      i.code = "invalid_bundle" := by
  intro i hi
  unfold bundle_check_issues at hi
  split at hi
  · split at hi
    · rw [List.mem_append] at hi
      rcases hi with hi | hi
      · exact validate_windows_runtime_codes env _ _ i hi
      · split at hi
        · simp at hi
          subst hi
          right
          right
          rfl
        · exact absurd hi (by simp)
    · exact absurd hi (by simp)
  · exact absurd hi (by simp)

/-- Helper: the spawn-probe stage only adds `spawn_failed` issues. -/
theorem spawn_check_issues_codes (env : Env) (sharkdPath : String)
    (issues : List InstallIssue)
    (h : ∀ i ∈ issues,
      i.code = "missing_sharkd" ∨ i.code = "missing_dependency" ∨
      i.code = "invalid_bundle" ∨ i.code = "spawn_failed") :
    ∀ i ∈ spawn_check_issues env sharkdPath issues,
      i.code = "missing_sharkd" ∨ i.code = "missing_dependency" ∨
      i.code = "invalid_bundle" ∨ i.code = "spawn_failed" := by
  intro i hi
  unfold spawn_check_issues at hi
  split at hi
  · split at hi
    · exact h i hi
    · rw [List.mem_append] at hi
      rcases hi with hi | hi
      · exact h i hi
      · simp at hi
        subst hi
        right
        right
        right
        rfl
    · rw [List.mem_append] at hi
      rcases hi with hi | hi
      · exact h i hi
      · simp at hi
        subst hi
        right
        right
        right
        rfl
  · exact h i hi

/-- C8 (amended): `get_install_health` is total — in every environment it
returns an `InstallHealthStatus` whose `ok` is true exactly when its issue
list is empty, whose issues all carry one of the stable codes
`missing_sharkd`, `missing_dependency`, `invalid_bundle`, `spawn_failed`,
and whose recommended action is either "none" or a string beginning with
"repair" (the missing-binary branch appends the failure headline after
"repair"). -/
theorem c8_install_health_report (env : Env) :
    ((get_install_health env).ok = true ↔ (get_install_health env).issues = []) ∧
    (∀ i ∈ (get_install_health env).issues,
      i.code = "missing_sharkd" ∨ i.code = "missing_dependency" ∨
      i.code = "invalid_bundle" ∨ i.code = "spawn_failed") ∧
    ((get_install_health env).recommended_action = "none" ∨
      ∃ rest, (get_install_health env).recommended_action = "repair" ++ rest) := by
  cases hf : find_sharkd_with_debug env with
  | error e =>
    have he := find_sharkd_error_msg env e hf
    subst he
    refine ⟨by simp [get_install_health, hf], ?_, ?_⟩
    · intro i hi
      simp [get_install_health, hf] at hi
      subst hi
      exact Or.inl rfl
    · right
      refine ⟨" (" ++ firstLine sharkdNotFoundError ++ ")", ?_⟩
      simp only [get_install_health, hf]
      decide
  | ok p =>
    refine ⟨?_, ?_, ?_⟩
    · simp only [get_install_health, hf]
      exact List.isEmpty_iff
    · intro i hi
      simp only [get_install_health, hf] at hi
      exact spawn_check_issues_codes env p _
        (fun j hj => by
          rcases bundle_check_issues_codes env p j hj with h | h | h <;> tauto)
        i hi
    · simp only [get_install_health, hf]
      cases hw : env.isWindows
      · left
        rfl
      · right
        exact ⟨"", by decide⟩

/-- The environment of a bare machine: no executable path, no files, no
PATH hits. -/
def cxEnv : Env :=
  { currentExe := none
    fileExists := fun _ => false
    whichOutput := none
    whereOutput := none
    isWindows := false
    targetTriple := "x86_64-unknown-linux-gnu"
    spawn := .success }

/-- Counterexample to C8 as stated: on the missing-binary branch the
recommended action is the string "repair (Sharkd not found. ...)", which is
neither exactly "repair" nor "none". -/
theorem c8_counterexample :
    ¬((get_install_health cxEnv).recommended_action = "repair" ∨
      (get_install_health cxEnv).recommended_action = "none") := by
  decide

/-- Witness for C8 (amended) at the bare-machine environment. -/
theorem c8_install_health_report_witness :
    ((get_install_health cxEnv).ok = true ↔ (get_install_health cxEnv).issues = []) ∧
    (InstallIssue.code ⟨"missing_sharkd",
        "Could not find sharkd binary in bundled or system locations.",
        none⟩ = "missing_sharkd" ∨
      InstallIssue.code ⟨"missing_sharkd",
        "Could not find sharkd binary in bundled or system locations.",
        none⟩ = "missing_dependency" ∨
      InstallIssue.code ⟨"missing_sharkd",
        "Could not find sharkd binary in bundled or system locations.",
        none⟩ = "invalid_bundle" ∨
      InstallIssue.code ⟨"missing_sharkd",
        "Could not find sharkd binary in bundled or system locations.",
        none⟩ = "spawn_failed") ∧
    ((get_install_health cxEnv).recommended_action = "none" ∨
      ∃ rest, (get_install_health cxEnv).recommended_action = "repair" ++ rest) :=
  ⟨(c8_install_health_report cxEnv).1,
   (c8_install_health_report cxEnv).2.1 _ (by decide),
   (c8_install_health_report cxEnv).2.2⟩

/-!
Concurrency model for the RPC round trip.  Every caller of
`SharkdClient::send_request` in the program — the Tauri commands of
`lib.rs` (whose shared access point is `get_sharkd`, lines 12-16) and the
HTTP handlers of `http_bridge.rs` — first locks the global `SHARKD` mutex
and holds its guard across the whole call, so one round trip (write the
request line inside `send_request`, lines 659-667, then read one response
line, lines 682-690) runs under the lock.  The engine is modelled as
strictly FIFO: it answers written requests in order, and a read returns the
response to the oldest still-unanswered request.  A caller is one of two
concurrently scheduled threads, each tagged by a `Bool`; its request is
tagged with its identity, and the response to a request carries the
request's tag.  A caller's program counter: 0 = acquire the global mutex,
1 = write own request, 2 = read one response line, 3 = release, 4 = done.
-/

/-- State of the two-caller interleaving: both program counters, the
holder of the global mutex, the engine's queue of written-but-unanswered
request tags, and the response tag each caller has read. -/
structure ChanState where
  pcA : Nat
  pcB : Nat
  lock : Option Bool
  fifo : List Bool
  gotA : Option Bool
  gotB : Option Bool
deriving Repr, DecidableEq

/-- Program counter of a caller. -/
def pcOf (s : ChanState) : Bool → Nat
  | false => s.pcA
  | true => s.pcB

/-- Response tag a caller has read. -/
def gotOf (s : ChanState) : Bool → Option Bool
  | false => s.gotA
  | true => s.gotB

/-- Update a caller's program counter. -/
def setPc (s : ChanState) : Bool → Nat → ChanState
  | false, n => { s with pcA := n }
  | true, n => { s with pcB := n }

/-- Record the response tag a caller read. -/
def setGot (s : ChanState) : Bool → Option Bool → ChanState
  | false, v => { s with gotA := v }
  | true, v => { s with gotB := v }

/-- One scheduled step of caller `c`: acquire blocks while the mutex is
held; write enqueues the caller's tagged request; read dequeues the oldest
response; release frees the mutex. -/
def step (s : ChanState) (c : Bool) : ChanState :=
  match pcOf s c with
  | 0 =>
    match s.lock with
    | none => { setPc s c 1 with lock := some c }
    | some _ => s
  | 1 => { setPc s c 2 with fifo := s.fifo ++ [c] }
  | 2 =>
    match s.fifo with
    | [] => s
    | r :: rest => { setGot (setPc s c 3) c (some r) with fifo := rest }
  | 3 => { setPc s c 4 with lock := none }
  | _ => s

/-- Initial state: both callers about to acquire, mutex free, engine idle.
-/
def initChan : ChanState := ⟨0, 0, none, [], none, none⟩

/-- Run a schedule (an arbitrary interleaving of the two callers). -/
def runSched (sched : List Bool) : ChanState :=
  sched.foldl step initChan

/-- A caller outside its critical section. -/
def IdlePc (n : Nat) : Prop := n = 0 ∨ n = 4

/-- The serialization invariant: read responses carry their reader's own
tag; when the mutex is free the engine queue is empty and both callers are
outside their critical sections; when caller `c` holds it, the other
caller is outside its critical section and the queue holds exactly `c`'s
request while it is written-but-unread. -/
def ChanInv (s : ChanState) : Prop :=
  (s.gotA = none ∨ s.gotA = some false) ∧
  (s.gotB = none ∨ s.gotB = some true) ∧
  (s.lock = none → s.fifo = [] ∧ IdlePc s.pcA ∧ IdlePc s.pcB) ∧
  (∀ c : Bool, s.lock = some c →
    IdlePc (pcOf s (!c)) ∧
    ((pcOf s c = 1 ∧ s.fifo = []) ∨ (pcOf s c = 2 ∧ s.fifo = [c]) ∨
     (pcOf s c = 3 ∧ s.fifo = [])))

/-- Helper: step equation for a successful mutex acquisition. -/
theorem step_acquire (s : ChanState) (c : Bool) (h0 : pcOf s c = 0)
    (hl : s.lock = none) : step s c = { setPc s c 1 with lock := some c } := by
  unfold step
  rw [h0, hl]

/-- Helper: step equation for an acquisition blocked on a held mutex. -/
theorem step_blocked (s : ChanState) (c : Bool) (d : Bool)
    (h0 : pcOf s c = 0) (hl : s.lock = some d) : step s c = s := by
  unfold step
  rw [h0, hl]

/-- Helper: step equation for writing the request line. -/
theorem step_write (s : ChanState) (c : Bool) (h1 : pcOf s c = 1) :
    step s c = { setPc s c 2 with fifo := s.fifo ++ [c] } := by
  unfold step
  rw [h1]

/-- Helper: step equation for reading the oldest response line. -/
theorem step_read (s : ChanState) (c : Bool) (r : Bool) (rest : List Bool)
    (h2 : pcOf s c = 2) (hf : s.fifo = r :: rest) :
    step s c = { setGot (setPc s c 3) c (some r) with fifo := rest } := by
  unfold step
  rw [h2, hf]

/-- Helper: step equation for releasing the mutex. -/
theorem step_release (s : ChanState) (c : Bool) (h3 : pcOf s c = 3) :
    step s c = { setPc s c 4 with lock := none } := by
  unfold step
  rw [h3]

/-- Helper: step equation for a finished caller. -/
theorem step_done (s : ChanState) (c : Bool) (h4 : pcOf s c = 4) :
    step s c = s := by
  unfold step
  rw [h4]

/-- Helper: the invariant holds initially. -/
theorem chanInv_init : ChanInv initChan := by
  refine ⟨Or.inl rfl, Or.inl rfl, fun _ => ⟨rfl, Or.inl rfl, Or.inl rfl⟩,
    fun c hc => absurd hc (by simp [initChan])⟩

/-- Helper: every scheduled step preserves the invariant. -/
theorem chanInv_step (s : ChanState) (c : Bool) (h : ChanInv s) :
    ChanInv (step s c) := by
  obtain ⟨hA, hB, hnone, hsome⟩ := h
  cases hlock : s.lock with
  | none =>
    obtain ⟨hfifo, hpcA, hpcB⟩ := hnone hlock
    have hidle : IdlePc (pcOf s c) := by cases c <;> assumption
    rcases hidle with h0 | h4
    · rw [step_acquire s c h0 hlock]
      cases c
      · refine ⟨hA, hB, fun hl => absurd hl (by simp [setPc]), fun d2 hd => ?_⟩
        cases (show (some false : Option Bool) = some d2 from hd)
        exact ⟨hpcB, Or.inl ⟨rfl, hfifo⟩⟩
      · refine ⟨hA, hB, fun hl => absurd hl (by simp [setPc]), fun d2 hd => ?_⟩
        cases (show (some true : Option Bool) = some d2 from hd)
        exact ⟨hpcA, Or.inl ⟨rfl, hfifo⟩⟩
    · rw [step_done s c h4]
      exact ⟨hA, hB, hnone, hsome⟩
  | some d =>
    obtain ⟨hidle, hcrit⟩ := hsome d hlock
    by_cases hcd : c = d
    · subst hcd
      rcases hcrit with ⟨h1, hf⟩ | ⟨h2, hf⟩ | ⟨h3, hf⟩
      · rw [step_write s c h1]
        cases c
        · refine ⟨hA, hB, fun hl => absurd (hlock.symm.trans hl) (by simp),
            fun d2 hd => ?_⟩
          cases (hlock.symm.trans hd : (some false : Option Bool) = some d2)
          exact ⟨hidle, Or.inr (Or.inl ⟨rfl, by simp [setPc, hf]⟩)⟩
        · refine ⟨hA, hB, fun hl => absurd (hlock.symm.trans hl) (by simp),
            fun d2 hd => ?_⟩
          cases (hlock.symm.trans hd : (some true : Option Bool) = some d2)
          exact ⟨hidle, Or.inr (Or.inl ⟨rfl, by simp [setPc, hf]⟩)⟩
      · rw [step_read s c c [] h2 (by rw [hf])]
        cases c
        · refine ⟨Or.inr rfl, hB, fun hl => absurd (hlock.symm.trans hl) (by simp),
            fun d2 hd => ?_⟩
          cases (hlock.symm.trans hd : (some false : Option Bool) = some d2)
          exact ⟨hidle, Or.inr (Or.inr ⟨rfl, rfl⟩)⟩
        · refine ⟨hA, Or.inr rfl, fun hl => absurd (hlock.symm.trans hl) (by simp),
            fun d2 hd => ?_⟩
          cases (hlock.symm.trans hd : (some true : Option Bool) = some d2)
          exact ⟨hidle, Or.inr (Or.inr ⟨rfl, rfl⟩)⟩
      · rw [step_release s c h3]
        cases c
        · exact ⟨hA, hB, fun _ => ⟨hf, Or.inr rfl, hidle⟩,
            fun d2 hd => absurd hd (by simp [setPc])⟩
        · exact ⟨hA, hB, fun _ => ⟨hf, hidle, Or.inr rfl⟩,
            fun d2 hd => absurd hd (by simp [setPc])⟩
    · have hidlec : IdlePc (pcOf s c) := by
        have hbc : (!d) = c := by cases c <;> cases d <;> simp_all
        rwa [hbc] at hidle
      rcases hidlec with h0 | h4
      · rw [step_blocked s c d h0 hlock]
        exact ⟨hA, hB, hnone, hsome⟩
      · rw [step_done s c h4]
        exact ⟨hA, hB, hnone, hsome⟩

/-- Helper: the invariant holds after any schedule. -/
theorem chanInv_runSched (sched : List Bool) : ChanInv (runSched sched) := by
  have hgen : ∀ s, ChanInv s → ChanInv (sched.foldl step s) := by
    induction sched with
    | nil => exact fun s h => h
    | cons c cs ih => exact fun s h => ih _ (chanInv_step s c h)
  exact hgen initChan chanInv_init

/-- C2: at most one RPC round trip is in flight at a time per bridge
instance — in the model of the program's callers (each holding the global
mutex across its `send_request` write and read against a strictly FIFO
engine), under every interleaving a caller either has read no response yet
or has read exactly the response answering its own request; neither caller
ever receives the response that answers the other caller's request. -/
theorem c2_rpc_serialization (sched : List Bool) (c : Bool) :
    gotOf (runSched sched) c = none ∨ gotOf (runSched sched) c = some c := by
  obtain ⟨hA, hB, _, _⟩ := chanInv_runSched sched
  cases c
  · exact hA
  · exact hB

/-- Witness for C2 at a concrete schedule where both callers complete
their round trips. -/
theorem c2_rpc_serialization_witness :
    (gotOf (runSched [false, false, false, false, true, true, true, true]) false
        = none ∨
      gotOf (runSched [false, false, false, false, true, true, true, true]) false
        = some false) ∧
    (gotOf (runSched [false, false, false, false, true, true, true, true]) true
        = none ∨
      gotOf (runSched [false, false, false, false, true, true, true, true]) true
        = some true) :=
  ⟨c2_rpc_serialization [false, false, false, false, true, true, true, true] false,
   c2_rpc_serialization [false, false, false, false, true, true, true, true] true⟩

end PacketPilot
